import Mathlib

/-!
Shallow embedding of the document subsystem of the repository: the five
serverless document endpoints (`list-documents`, `upload-document`,
`update-document`, `delete-document`, `get-document-url`) and the
client-side `DocumentContext`, translated from the JavaScript/TypeScript
sources.  The repository ships several variants of some handlers; each
variant is embedded separately under its own name.

External services (Supabase auth, Postgres, object storage) are modelled
explicitly: the database is a list of document rows, object storage is a
list of key/size pairs, authentication is a token table, and failures of
the backing services are passed in as explicit `Option String` error
parameters (`none` means the backing call succeeds, `some m` means it
fails with message `m`).
-/

/-- A row of the `documents` table (`DocumentFile` in the client types):
id, owning user, display name, human-readable size label, creation
timestamp, visibility and the object-storage key. -/
structure DocRow where
  id : Nat
  user_id : String
  name : String
  size : String
  created_at : Nat
  visibility : String
  file_path : String
deriving DecidableEq

/-- Combined external state: the object-storage bucket `documents`
(key and byte size per object) and the `documents` database table. -/
structure St where
  storage : List (String × Nat)
  db : List DocRow
deriving DecidableEq

/-- A row as returned by the list operations: the stored row plus the
optionally derived `public_url` (absent models the JS `undefined`). -/
structure EnhancedDoc where
  row : DocRow
  public_url : Option String
deriving DecidableEq

/-- JSON response bodies produced by the endpoints. -/
inductive Body where
  | err (msg : String)
  | url (u : String)
  | document (d : DocRow)
  | documents (ds : List EnhancedDoc)
  | success
  | empty
deriving DecidableEq

/-- An HTTP response together with the external state after the handler ran. -/
structure HResult where
  status : Nat
  body : Body
  st : St
deriving DecidableEq

/-- HTTP methods distinguished by the handlers. -/
inductive Method where
  | GET
  | POST
  | OPTIONS
deriving DecidableEq

/-- `startsWith`, computed over the character list so that concrete
instances reduce inside the kernel. -/
def strStartsWith (s p : String) : Bool :=
  s.data.take p.data.length == p.data

/-- JS `trim()`: strip leading and trailing whitespace. -/
def strTrim (s : String) : String :=
  ⟨((s.data.dropWhile Char.isWhitespace).reverse.dropWhile Char.isWhitespace).reverse⟩

/-- JS string fallback `a || b` (the empty string is falsy). -/
def jsOr (a b : String) : String :=
  if a == "" then b else a

/-- Field access on a parsed JS object or multipart field map
(`obj[k]`, `none` models `undefined`; parsed objects have unique keys). -/
def jsGet (obj : List (String × String)) (k : String) : Option String :=
  obj.lookup k

/-- Model of `supabase.auth.getUser(token)`: the session table maps bearer
tokens to user ids; an unknown token is an auth failure. -/
def getUser (sessions : List (String × String)) (token : String) : Option String :=
  sessions.lookup token

/-- Model of `storage.from(bucket).getPublicUrl(path)`, a pure URL derivation. -/
def getPublicUrl (path : String) : String :=
  "public:" ++ path

/-- Model of `storage.from(bucket).createSignedUrl(path, expiresIn)`.  URL
minting itself is deterministic; failure of the call is modelled by the
callers' explicit `signError` parameter. -/
def createSignedUrl (path : String) (expiresIn : Nat) : String :=
  "signed:" ++ toString expiresIn ++ ":" ++ path

/-- PostgREST `.single()`: yields the row only when the result set has
exactly one row, otherwise the call errors. -/
def singleRow (l : List DocRow) : Option DocRow :=
  match l with
  | [d] => some d
  | _ => none

/-- Insertion step for the backing query ordering. -/
def insertByCreatedAtDesc (r : DocRow) : List DocRow → List DocRow
  | [] => [r]
  | x :: xs =>
      if r.created_at ≤ x.created_at then x :: insertByCreatedAtDesc r xs
      else r :: x :: xs

/-- Model of the backing query clause `order('created_at', { ascending: false })`:
rows sorted newest first. -/
def sortByCreatedAtDesc (l : List DocRow) : List DocRow :=
  l.foldr insertByCreatedAtDesc []

/-- Shared per-row enhancement used by the list operations of
`list-documents` (part_006) and `DocumentContext.fetchDocuments`: derive a
public URL only for public rows, leave `public_url` undefined otherwise. -/
def enhanceDoc (doc : DocRow) : EnhancedDoc :=
  if doc.visibility == "public" then
    { row := doc, public_url := some (getPublicUrl doc.file_path) }
  else
    { row := doc, public_url := none }

/-- `GET /api/list-documents` (part_006): verify bearer token, fetch the
user's rows newest first, attach public URLs to public rows. -/
def listDocumentsHandler (method : Method) (serviceKeyOk : Bool)
    (authHeader : Option String) (sessions : List (String × String))
    (fetchError : Option String) (st : St) : HResult :=
  if method == .OPTIONS then ⟨200, .empty, st⟩
  else if method != .GET then ⟨405, .err "Method not allowed", st⟩
  else if !serviceKeyOk then ⟨500, .err "Server misconfiguration: missing service key", st⟩
  else
    match authHeader with
    | none => ⟨401, .err "Missing or invalid Authorization header", st⟩
    | some h =>
      if !(strStartsWith h "Bearer ") then ⟨401, .err "Missing or invalid Authorization header", st⟩
      else
        match getUser sessions (h.drop 7) with
        | none => ⟨401, .err "Invalid or expired session. Please sign in again.", st⟩
        | some userId =>
          match fetchError with
          | some m => ⟨500, .err m, st⟩
          | none =>
            let documents := sortByCreatedAtDesc (st.db.filter (fun r => r.user_id == userId))
            ⟨200, .documents (documents.map enhanceDoc), st⟩

/-- `POST /api/get-document-url`, first variant: fetch the row by `docId`
alone, allow access when the requester owns it or it is public, and always
answer with a signed URL (10 minutes). -/
def getDocumentUrl1 (method : Method) (serviceKeyOk : Bool)
    (authHeader : Option String) (sessions : List (String × String))
    (docId : Option Nat) (signError : Option String) (st : St) : HResult :=
  if method == .OPTIONS then ⟨200, .empty, st⟩
  else if method != .POST then ⟨405, .err "Method not allowed", st⟩
  else if !serviceKeyOk then ⟨500, .err "Server misconfiguration: missing service key", st⟩
  else
    match authHeader with
    | none => ⟨401, .err "Missing or invalid Authorization header", st⟩
    | some h =>
      if !(strStartsWith h "Bearer ") then ⟨401, .err "Missing or invalid Authorization header", st⟩
      else
        match getUser sessions (h.drop 7) with
        | none => ⟨401, .err "Invalid or expired session. Please sign in again.", st⟩
        | some userId =>
          match docId with
          | none => ⟨400, .err "Missing docId", st⟩
          | some d =>
            if d == 0 then ⟨400, .err "Missing docId", st⟩
            else
              match singleRow (st.db.filter (fun r => r.id == d)) with
              | none => ⟨404, .err "Document not found", st⟩
              | some doc =>
                if doc.user_id != userId && doc.visibility != "public" then
                  ⟨403, .err "Access denied", st⟩
                else
                  match signError with
                  | some m => ⟨500, .err m, st⟩
                  | none => ⟨200, .url (createSignedUrl doc.file_path (60 * 10)), st⟩

/-- `POST /api/get-document-url`, second variant: fetch the row filtered by
both `docId` and the requester's `user_id`; return the public URL for
public rows and a 10-minute signed URL for private ones. -/
def getDocumentUrl2 (method : Method) (serviceKeyOk : Bool)
    (authHeader : Option String) (sessions : List (String × String))
    (docId : Option Nat) (signError : Option String) (st : St) : HResult :=
  if method == .OPTIONS then ⟨200, .empty, st⟩
  else if method != .POST then ⟨405, .err "Method not allowed", st⟩
  else if !serviceKeyOk then ⟨500, .err "Server misconfiguration: missing service key", st⟩
  else
    match authHeader with
    | none => ⟨401, .err "Missing or invalid Authorization header", st⟩
    | some h =>
      if !(strStartsWith h "Bearer ") then ⟨401, .err "Missing or invalid Authorization header", st⟩
      else
        match getUser sessions (h.drop 7) with
        | none => ⟨401, .err "Invalid or expired session. Please sign in again.", st⟩
        | some userId =>
          match docId with
          | none => ⟨400, .err "Missing docId in request body", st⟩
          | some d =>
            if d == 0 then ⟨400, .err "Missing docId in request body", st⟩
            else
              match singleRow (st.db.filter (fun r => r.id == d && r.user_id == userId)) with
              | none => ⟨404, .err "Document not found or access denied", st⟩
              | some doc =>
                if doc.visibility == "public" then
                  ⟨200, .url (getPublicUrl doc.file_path), st⟩
                else
                  match signError with
                  | some m => ⟨500, .err m, st⟩
                  | none => ⟨200, .url (createSignedUrl doc.file_path (60 * 10)), st⟩

/-- Patch a row with the update payload: only `name` and `visibility` are
ever present in the payload the handlers build. -/
def applyUpdates (r : DocRow) (name : Option String) (visibility : Option String) : DocRow :=
  { r with name := name.getD r.name, visibility := visibility.getD r.visibility }

/-- `POST /api/update-document`, `src/api/update-document.js`: destructures
only `name` and `visibility` from the request body, verifies ownership by a
separate fetch, then updates the row.  `body` carries the string-valued
keys of the JSON body (`docId` is passed separately). -/
def updateDocumentHandler1 (method : Method) (serviceKeyOk : Bool)
    (authHeader : Option String) (sessions : List (String × String))
    (docId : Option Nat) (body : List (String × String))
    (updateError : Option String) (st : St) : HResult :=
  if method == .OPTIONS then ⟨200, .empty, st⟩
  else if method != .POST then ⟨405, .err "Method not allowed", st⟩
  else if !serviceKeyOk then ⟨500, .err "Server misconfiguration: missing service key", st⟩
  else
    match authHeader with
    | none => ⟨401, .err "Missing or invalid Authorization header", st⟩
    | some h =>
      if !(strStartsWith h "Bearer ") then ⟨401, .err "Missing or invalid Authorization header", st⟩
      else
        match getUser sessions (h.drop 7) with
        | none => ⟨401, .err "Invalid or expired session. Please sign in again.", st⟩
        | some userId =>
          match docId with
          | none => ⟨400, .err "Missing docId", st⟩
          | some d =>
            if d == 0 then ⟨400, .err "Missing docId", st⟩
            else
              match singleRow (st.db.filter (fun r => r.id == d)) with
              | none => ⟨404, .err "Document not found", st⟩
              | some existingDoc =>
                if existingDoc.user_id != userId then
                  ⟨403, .err "You do not own this document", st⟩
                else
                  let name := jsGet body "name"
                  let visibility := jsGet body "visibility"
                  if name.isNone && visibility.isNone then
                    ⟨400, .err "No updates provided", st⟩
                  else
                    match updateError with
                    | some m => ⟨500, .err m, st⟩
                    | none =>
                      let db2 := st.db.map (fun r => if r.id == d then applyUpdates r name visibility else r)
                      match singleRow (db2.filter (fun r => r.id == d)) with
                      | none => ⟨500, .err "JSON object requested, multiple (or no) rows returned", { st with db := db2 }⟩
                      | some row => ⟨200, .document row, { st with db := db2 }⟩

/-- `POST /api/update-document`, part_006 variant: sanitises the `updates`
object through the allow-list `['name', 'visibility']`, verifies ownership
by a fetch filtered on `user_id`, then updates the row. -/
def updateDocumentHandler2 (method : Method) (serviceKeyOk : Bool)
    (authHeader : Option String) (sessions : List (String × String))
    (docId : Option Nat) (updates : Option (List (String × String)))
    (updateError : Option String) (st : St) : HResult :=
  if method == .OPTIONS then ⟨200, .empty, st⟩
  else if method != .POST then ⟨405, .err "Method not allowed", st⟩
  else if !serviceKeyOk then ⟨500, .err "Server misconfiguration: missing service key", st⟩
  else
    match authHeader with
    | none => ⟨401, .err "Missing or invalid Authorization header", st⟩
    | some h =>
      if !(strStartsWith h "Bearer ") then ⟨401, .err "Missing or invalid Authorization header", st⟩
      else
        match getUser sessions (h.drop 7) with
        | none => ⟨401, .err "Invalid or expired session. Please sign in again.", st⟩
        | some userId =>
          match docId with
          | none => ⟨400, .err "Missing docId in request body", st⟩
          | some d =>
            if d == 0 then ⟨400, .err "Missing docId in request body", st⟩
            else
              match updates with
              | none => ⟨400, .err "Missing updates in request body", st⟩
              | some upd =>
                let name := jsGet upd "name"
                let visibility := jsGet upd "visibility"
                if name.isNone && visibility.isNone then
                  ⟨400, .err "No valid fields to update", st⟩
                else
                  match singleRow (st.db.filter (fun r => r.id == d && r.user_id == userId)) with
                  | none => ⟨404, .err "Document not found or access denied", st⟩
                  | some _existingDoc =>
                    match updateError with
                    | some m => ⟨500, .err m, st⟩
                    | none =>
                      let db2 := st.db.map (fun r => if r.id == d then applyUpdates r name visibility else r)
                      match singleRow (db2.filter (fun r => r.id == d)) with
                      | none => ⟨500, .err "JSON object requested, multiple (or no) rows returned", { st with db := db2 }⟩
                      | some row => ⟨200, .document row, { st with db := db2 }⟩

/-- `POST /api/delete-document` (part_006): verify ownership via a fetch
filtered on `user_id`, remove the storage object best-effort (an error is
logged, not surfaced), then delete the database row. -/
def deleteDocumentHandler (method : Method) (serviceKeyOk : Bool)
    (authHeader : Option String) (sessions : List (String × String))
    (docId : Option Nat) (storageRemoveError dbDeleteError : Option String)
    (st : St) : HResult :=
  if method == .OPTIONS then ⟨200, .empty, st⟩
  else if method != .POST then ⟨405, .err "Method not allowed", st⟩
  else if !serviceKeyOk then ⟨500, .err "Server misconfiguration: missing service key", st⟩
  else
    match authHeader with
    | none => ⟨401, .err "Missing or invalid Authorization header", st⟩
    | some h =>
      if !(strStartsWith h "Bearer ") then ⟨401, .err "Missing or invalid Authorization header", st⟩
      else
        match getUser sessions (h.drop 7) with
        | none => ⟨401, .err "Invalid or expired session. Please sign in again.", st⟩
        | some userId =>
          match docId with
          | none => ⟨400, .err "Missing docId in request body", st⟩
          | some d =>
            if d == 0 then ⟨400, .err "Missing docId in request body", st⟩
            else
              match singleRow (st.db.filter (fun r => r.id == d && r.user_id == userId)) with
              | none => ⟨404, .err "Document not found or access denied", st⟩
              | some doc =>
                let storage2 :=
                  if doc.file_path != "" then
                    match storageRemoveError with
                    | some _ => st.storage
                    | none => st.storage.filter (fun o => o.1 != doc.file_path)
                  else st.storage
                match dbDeleteError with
                | some m => ⟨500, .err m, { st with storage := storage2 }⟩
                | none => ⟨200, .success, { storage := storage2, db := st.db.filter (fun r => r.id != d) }⟩

/-- One part of a multipart request body: the form field name the part was
sent under, the original filename, the declared MIME type, and the byte
size of the incoming stream. -/
structure FilePart where
  fieldname : String
  filename : String
  mimeType : String
  size : Nat
deriving DecidableEq

/-- The file captured by the multipart parsing (after filename/MIME
fallbacks, with the byte count actually buffered). -/
structure ParsedFile where
  filename : String
  mimeType : String
  size : Nat
deriving DecidableEq

/-- The Busboy `limits.fileSize` value used by both upload variants. -/
def fileSizeLimit : Nat := 15 * 1024 * 1024

/-- `parseMultipart`, `src/api/upload-document.js` variant: only the part
named `file` is captured; Busboy truncates the stream at `fileSizeLimit`
and the empty `limit` handler means the truncated file is accepted. -/
def parseMultipartA (parts : List FilePart) : Option ParsedFile :=
  parts.foldl
    (fun acc p =>
      if p.fieldname == "file" then
        some { filename := jsOr p.filename "upload",
               mimeType := jsOr p.mimeType "application/octet-stream",
               size := min p.size fileSizeLimit }
      else acc)
    none

/-- `parseMultipart`, part_006 variant: a `limit` event records a file
error, `end` assigns the file only when no error was recorded, and
`finish` rejects the whole parse when an error was recorded. -/
def parseMultipartB (parts : List FilePart) : Except String (Option ParsedFile) :=
  let acc := parts.foldl
    (fun (acc : Option String × Option ParsedFile) p =>
      if p.fieldname == "file" then
        if p.size > fileSizeLimit then (some "File too large. Max 15MB.", acc.2)
        else
          match acc.1 with
          | some _ => acc
          | none => (none, some { filename := jsOr p.filename "upload",
                                  mimeType := jsOr p.mimeType "application/octet-stream",
                                  size := p.size })
      else acc)
    (none, none)
  match acc.1 with
  | some m => Except.error m
  | none => Except.ok acc.2

/-- The size label `sizeKb > 1024 ? MB : KB` with one decimal digit
(integer-arithmetic rendering of the source's floating-point `toFixed(1)`,
truncating the tenths). -/
def sizeLabel (bytes : Nat) : String :=
  if bytes > 1024 * 1024 then
    let mbTenths := bytes * 10 / (1024 * 1024)
    toString (mbTenths / 10) ++ "." ++ toString (mbTenths % 10) ++ " MB"
  else
    let kbTenths := bytes * 10 / 1024
    toString (kbTenths / 10) ++ "." ++ toString (kbTenths % 10) ++ " KB"

/-- `POST /api/upload-document`, `src/api/upload-document.js` variant:
bearer check, multipart parse (truncating variant), storage upload under
`{userId}/{timestamp}_{filename}`, then the database insert.  `now` is
`Date.now()`, `newId` the database-assigned row id. -/
def uploadDocumentHandler (method : Method) (envUrlOk envKeyOk : Bool)
    (authHeader : Option String) (sessions : List (String × String))
    (fields : List (String × String)) (parts : List FilePart)
    (now newId : Nat) (storageUploadError dbInsertError : Option String)
    (st : St) : HResult :=
  if method == .OPTIONS then ⟨200, .empty, st⟩
  else if method != .POST then ⟨405, .err "Method not allowed", st⟩
  else if !envUrlOk then ⟨500, .err "Missing env var: SUPABASE_URL", st⟩
  else if !envKeyOk then ⟨500, .err "Missing env var: SUPABASE_SERVICE_ROLE_KEY", st⟩
  else
    let a := authHeader.getD ""
    if !(strStartsWith a "Bearer ") then ⟨401, .err "Missing Authorization Bearer token", st⟩
    else
      let token := a.drop 7
      if token == "" then ⟨401, .err "Missing Authorization Bearer token", st⟩
      else
        match getUser sessions token with
        | none => ⟨401, .err "Invalid session token", st⟩
        | some userId =>
          match parseMultipartA parts with
          | none => ⟨400, .err "Missing file", st⟩
          | some file =>
            let displayName := strTrim (jsOr (jsOr ((jsGet fields "name").getD "") file.filename) "")
            let visibility :=
              if jsOr ((jsGet fields "visibility").getD "") "private" == "public"
              then "public" else "private"
            if displayName == "" then ⟨400, .err "Missing name", st⟩
            else
              let filePath := userId ++ "/" ++ toString now ++ "_" ++ file.filename
              match storageUploadError with
              | some m => ⟨400, .err m, st⟩
              | none =>
                let storage2 := (filePath, file.size) :: st.storage
                match dbInsertError with
                | some m => ⟨400, .err m, { st with storage := storage2 }⟩
                | none =>
                  let row : DocRow :=
                    { id := newId, user_id := userId, name := displayName,
                      size := sizeLabel file.size, created_at := now,
                      visibility := visibility, file_path := filePath }
                  ⟨200, .document row, { storage := storage2, db := st.db ++ [row] }⟩

/-- `POST /api/upload-document`, part_006 variant: identical flow but the
multipart parse rejects oversized files, and that rejection lands in the
handler's catch block as a 500. -/
def uploadDocumentHandlerV2 (method : Method) (envUrlOk envKeyOk : Bool)
    (authHeader : Option String) (sessions : List (String × String))
    (fields : List (String × String)) (parts : List FilePart)
    (now newId : Nat) (storageUploadError dbInsertError : Option String)
    (st : St) : HResult :=
  if method == .OPTIONS then ⟨200, .empty, st⟩
  else if method != .POST then ⟨405, .err "Method not allowed", st⟩
  else if !envUrlOk then ⟨500, .err "Missing env var: SUPABASE_URL", st⟩
  else if !envKeyOk then ⟨500, .err "Missing env var: SUPABASE_SERVICE_ROLE_KEY", st⟩
  else
    let a := authHeader.getD ""
    if !(strStartsWith a "Bearer ") then ⟨401, .err "Missing Authorization Bearer token", st⟩
    else
      let token := a.drop 7
      if token == "" then ⟨401, .err "Missing Authorization Bearer token", st⟩
      else
        match getUser sessions token with
        | none => ⟨401, .err "Invalid session token", st⟩
        | some userId =>
          match parseMultipartB parts with
          | Except.error m => ⟨500, .err m, st⟩
          | Except.ok none => ⟨400, .err "Missing file", st⟩
          | Except.ok (some file) =>
            let displayName := strTrim (jsOr (jsOr ((jsGet fields "name").getD "") file.filename) "")
            let visibility :=
              if jsOr ((jsGet fields "visibility").getD "") "private" == "public"
              then "public" else "private"
            if displayName == "" then ⟨400, .err "Missing name", st⟩
            else
              let filePath := userId ++ "/" ++ toString now ++ "_" ++ file.filename
              match storageUploadError with
              | some m => ⟨400, .err m, st⟩
              | none =>
                let storage2 := (filePath, file.size) :: st.storage
                match dbInsertError with
                | some m => ⟨400, .err m, { st with storage := storage2 }⟩
                | none =>
                  let row : DocRow :=
                    { id := newId, user_id := userId, name := displayName,
                      size := sizeLabel file.size, created_at := now,
                      visibility := visibility, file_path := filePath }
                  ⟨200, .document row, { storage := storage2, db := st.db ++ [row] }⟩

/-- Outcome of the client-side upload form submit. -/
inductive ClientUploadOutcome where
  | rejected (msg : String)
  | submitted (name : String) (fileName : String) (fileSize : Nat) (visibility : String)
deriving DecidableEq

/-- The client-side limit `MAX_BYTES` in `handleUploadSubmit`. -/
def MAX_BYTES : Nat := 15 * 1024 * 1024

/-- `handleUploadSubmit` (DocumentsPage): client-side validation run before
any network request; `submitted` is the call into `addDocument`. -/
def handleUploadSubmit (uploadFile : Option FilePart) (uploadName : String)
    (uploadVisibility : String) : ClientUploadOutcome :=
  match uploadFile with
  | none => .rejected "Pick a file to upload."
  | some f =>
    let name := jsOr (strTrim uploadName) f.filename
    if name == "" then .rejected "Enter a document name."
    else if f.size > MAX_BYTES then .rejected "File too large. Max 15MB."
    else .submitted name f.filename f.size uploadVisibility

/-- The client-side size label, always in KB. -/
def clientSizeLabel (bytes : Nat) : String :=
  let kbTenths := bytes * 10 / 1024
  toString (kbTenths / 10) ++ "." ++ toString (kbTenths % 10) ++ " KB"

/-- `DocumentContext.addDocument` (configured path): storage upload under
`{profile.id}/{Date.now()}_{file.name}`, then the database insert; a
failure of either backing call is rethrown with no compensation. -/
def addDocument (profileId : String) (fileName : String) (fileSize : Nat)
    (detailsName : String) (detailsVisibility : Option String)
    (now newId : Nat) (uploadError insertError : Option String)
    (st : St) : St × Except String DocRow :=
  let filePath := profileId ++ "/" ++ toString now ++ "_" ++ fileName
  match uploadError with
  | some m => (st, Except.error m)
  | none =>
    let storage2 := (filePath, fileSize) :: st.storage
    match insertError with
    | some m => ({ st with storage := storage2 }, Except.error m)
    | none =>
      let row : DocRow :=
        { id := newId, user_id := profileId, name := detailsName,
          size := clientSizeLabel fileSize, created_at := now,
          visibility := jsOr (detailsVisibility.getD "") "private",
          file_path := filePath }
      ({ storage := storage2, db := st.db ++ [row] }, Except.ok row)

/-- `DocumentContext.deleteDocument` (configured path): find the document
in local state, remove its storage object (an error is logged and
swallowed), delete the database row (an error is thrown), then drop the
row from the local list. -/
def deleteDocumentClient (documents : List DocRow) (docId : Nat)
    (storageRemoveError dbDeleteError : Option String)
    (st : St) : St × Except String (List DocRow) :=
  match documents.find? (fun d => d.id == docId) with
  | none => (st, Except.ok documents)
  | some docToDelete =>
    let storage2 :=
      match storageRemoveError with
      | some _ => st.storage
      | none => st.storage.filter (fun o => o.1 != docToDelete.file_path)
    match dbDeleteError with
    | some m => ({ st with storage := storage2 }, Except.error m)
    | none =>
      ({ storage := storage2, db := st.db.filter (fun r => r.id != docId) },
       Except.ok (documents.filter (fun d => d.id != docId)))

/-- `DocumentContext.fetchDocuments` (configured path): the user's rows
newest first, with a public URL computed only for public documents. -/
def fetchDocumentsClient (userId : String) (fetchError : Option String)
    (st : St) : Except String (List EnhancedDoc) :=
  match fetchError with
  | some m => Except.error m
  | none =>
    let docRecords := sortByCreatedAtDesc (st.db.filter (fun r => r.user_id == userId))
    Except.ok (docRecords.map enhanceDoc)

/-- `fetchDocuments`, part_000 variant: every fetched row is enhanced with
a public URL, public and private alike (the catch sets the list to `[]`;
the per-row fallback is unreachable since `getPublicUrl` cannot throw). -/
def fetchDocumentsV0 (userId : String) (fetchError : Option String)
    (st : St) : List EnhancedDoc :=
  match fetchError with
  | some _ => []
  | none =>
    (sortByCreatedAtDesc (st.db.filter (fun r => r.user_id == userId))).map
      (fun doc => { row := doc, public_url := some (getPublicUrl doc.file_path) })

/-- Descending order on `created_at`: the relation the list query sorts by. -/
def createdDescRel (a b : DocRow) : Prop := b.created_at ≤ a.created_at

/-- An Authorization header that is absent or does not begin with the
string `Bearer` followed by a space. -/
def missingBearer (h : Option String) : Bool :=
  match h with
  | none => true
  | some s => !(strStartsWith s "Bearer ")

theorem sortByCreatedAtDesc_cons (x : DocRow) (xs : List DocRow) :
    sortByCreatedAtDesc (x :: xs) = insertByCreatedAtDesc x (sortByCreatedAtDesc xs) := rfl

theorem mem_insertByCreatedAtDesc {a r : DocRow} {l : List DocRow} :
    a ∈ insertByCreatedAtDesc r l ↔ a = r ∨ a ∈ l := by
  induction l with
  | nil => simp [insertByCreatedAtDesc]
  | cons x xs ih =>
    simp only [insertByCreatedAtDesc]
    split
    · simp only [List.mem_cons, ih]
      tauto
    · simp [List.mem_cons]

theorem pairwise_insertByCreatedAtDesc {r : DocRow} {l : List DocRow}
    (h : l.Pairwise createdDescRel) :
    (insertByCreatedAtDesc r l).Pairwise createdDescRel := by
  induction l with
  | nil => simp [insertByCreatedAtDesc]
  | cons x xs ih =>
    rcases List.pairwise_cons.mp h with ⟨hx, hxs⟩
    simp only [insertByCreatedAtDesc]
    split
    · next hle =>
      refine List.pairwise_cons.mpr ⟨?_, ih hxs⟩
      intro b hb
      rcases mem_insertByCreatedAtDesc.mp hb with rfl | hb2
      · exact hle
      · exact hx b hb2
    · next hgt =>
      push_neg at hgt
      refine List.pairwise_cons.mpr ⟨?_, h⟩
      intro b hb
      rcases List.mem_cons.mp hb with rfl | hb2
      · exact le_of_lt hgt
      · exact le_trans (hx b hb2) (le_of_lt hgt)

theorem mem_sortByCreatedAtDesc {a : DocRow} {l : List DocRow} :
    a ∈ sortByCreatedAtDesc l ↔ a ∈ l := by
  induction l with
  | nil => simp [sortByCreatedAtDesc]
  | cons x xs ih =>
    rw [sortByCreatedAtDesc_cons, mem_insertByCreatedAtDesc]
    simp [ih]

theorem pairwise_sortByCreatedAtDesc (l : List DocRow) :
    (sortByCreatedAtDesc l).Pairwise createdDescRel := by
  induction l with
  | nil => simp [sortByCreatedAtDesc]
  | cons x xs ih =>
    rw [sortByCreatedAtDesc_cons]
    exact pairwise_insertByCreatedAtDesc ih

/-- The fields an update operation must leave untouched: everything except
`name` and `visibility`. -/
def frameEq (r r2 : DocRow) : Prop :=
  r2.id = r.id ∧ r2.user_id = r.user_id ∧ r2.size = r.size ∧
  r2.created_at = r.created_at ∧ r2.file_path = r.file_path

theorem frameEq_refl (r : DocRow) : frameEq r r := ⟨rfl, rfl, rfl, rfl, rfl⟩

theorem forall₂_frameEq_refl (l : List DocRow) : List.Forall₂ frameEq l l := by
  induction l with
  | nil => exact List.Forall₂.nil
  | cons x xs ih => exact List.Forall₂.cons (frameEq_refl x) ih

theorem forall₂_frameEq_map (l : List DocRow) (f : DocRow → DocRow)
    (h : ∀ r, frameEq r (f r)) : List.Forall₂ frameEq l (l.map f) := by
  induction l with
  | nil => exact List.Forall₂.nil
  | cons x xs ih => exact List.Forall₂.cons (h x) ih

theorem frameEq_applyUpdates (r : DocRow) (n v : Option String) :
    frameEq r (applyUpdates r n v) := by
  simp [frameEq, applyUpdates]

theorem jsGet_filter_allowed (l : List (String × String)) (k : String)
    (hk : k = "name" ∨ k = "visibility") :
    jsGet (l.filter (fun kv => kv.1 == "name" || kv.1 == "visibility")) k = jsGet l k := by
  induction l with
  | nil => rfl
  | cons kv tl ih =>
    obtain ⟨k1, v1⟩ := kv
    simp only [jsGet] at *
    by_cases h1 : (k1 == "name" || k1 == "visibility") = true
    · by_cases h2 : (k == k1) = true
      · simp [List.filter_cons, h1, List.lookup, h2]
      · simp [List.filter_cons, h1, List.lookup, h2, ih]
    · have h2 : (k == k1) = false := by
        simp only [Bool.or_eq_true, beq_iff_eq] at h1
        push_neg at h1
        rcases hk with rfl | rfl
        · simp only [beq_eq_false_iff_ne, ne_eq]
          exact fun he => h1.1 he.symm
        · simp only [beq_eq_false_iff_ne, ne_eq]
          exact fun he => h1.2 he.symm
      simp [List.filter_cons, h1, List.lookup, h2, ih]

/-- Normalisation of the submitted visibility field in the upload handlers:
exactly the string `public` survives, everything else becomes `private`. -/
theorem visibility_normalisation (o : Option String) :
    ((if jsOr (o.getD "") "private" == "public" then "public" else "private") = "public"
      ↔ o = some "public") := by
  cases o with
  | none => simp [jsOr]
  | some s =>
    by_cases hs : s = ""
    · subst hs; simp [jsOr]
    · simp only [Option.getD_some, jsOr, beq_iff_eq, if_neg hs]
      by_cases hp : s = "public" <;> simp [hp]

/-- A fetch filtered by both id and owner, given the rows matching the id. -/
theorem filter_user_of_filter_id (db : List DocRow) (d : Nat) (user : String) (doc : DocRow)
    (h : db.filter (fun r => r.id == d) = [doc]) :
    db.filter (fun r => r.id == d && r.user_id == user)
      = if doc.user_id == user then [doc] else [] := by
  have hcomm : (fun (r : DocRow) => r.id == d && r.user_id == user)
      = fun r => r.user_id == user && (r.id == d) := by
    funext r; exact Bool.and_comm _ _
  rw [hcomm, ← List.filter_filter, h]
  by_cases hu : (doc.user_id == user) = true <;> simp [List.filter_cons, hu]

theorem enhanceDoc_row (doc : DocRow) : (enhanceDoc doc).row = doc := by
  unfold enhanceDoc; split <;> rfl

/-- Every row produced by the shared enhancement of a user's sorted rows
carries a public URL exactly when it is public, belongs to the user, and
comes from the table. -/
theorem mem_enhanced (user : String) (db : List DocRow) (e : EnhancedDoc)
    (he : e ∈ (sortByCreatedAtDesc (db.filter (fun r => r.user_id == user))).map enhanceDoc) :
    (e.public_url.isSome ↔ e.row.visibility = "public") ∧ e.row.user_id = user ∧ e.row ∈ db := by
  rcases List.mem_map.mp he with ⟨doc, hdoc, rfl⟩
  have hmem := mem_sortByCreatedAtDesc.mp hdoc
  have hdb := (List.mem_filter.mp hmem).1
  have hu : doc.user_id = user := by
    have h2 := (List.mem_filter.mp hmem).2
    simpa [beq_iff_eq] using h2
  by_cases hv : doc.visibility = "public" <;>
    simp [enhanceDoc, hv, hu, hdb]

theorem pairwise_enhanced (user : String) (db : List DocRow) :
    ((sortByCreatedAtDesc (db.filter (fun r => r.user_id == user))).map enhanceDoc).Pairwise
      (fun e1 e2 => e2.row.created_at ≤ e1.row.created_at) := by
  refine List.Pairwise.map enhanceDoc ?_ (pairwise_sortByCreatedAtDesc _)
  intro a b hab
  simpa [enhanceDoc_row, createdDescRel] using hab

/-- In the part_000 fetch variant every returned row carries a public URL. -/
theorem mem_fetchDocumentsV0 (user : String) (st : St) (e : EnhancedDoc)
    (he : e ∈ fetchDocumentsV0 user none st) :
    e.public_url.isSome ∧ e.row.user_id = user ∧ e.row ∈ st.db := by
  simp only [fetchDocumentsV0] at he
  rcases List.mem_map.mp he with ⟨doc, hdoc, rfl⟩
  have hmem := mem_sortByCreatedAtDesc.mp hdoc
  have hdb := (List.mem_filter.mp hmem).1
  have hu : doc.user_id = user := by
    simpa [beq_iff_eq] using (List.mem_filter.mp hmem).2
  simp [hu, hdb]

/-- A public document owned by alice. -/
def docPub : DocRow :=
  { id := 1, user_id := "alice", name := "cv.pdf", size := "1.0 KB",
    created_at := 100, visibility := "public", file_path := "alice/100_cv.pdf" }

/-- A private document owned by alice. -/
def docPriv : DocRow :=
  { id := 2, user_id := "alice", name := "secret.pdf", size := "2.0 KB",
    created_at := 50, visibility := "private", file_path := "alice/50_secret.pdf" }

/-- A state holding both of alice's documents and their storage objects. -/
def stDocs : St :=
  { storage := [("alice/100_cv.pdf", 1024), ("alice/50_secret.pdf", 2048)],
    db := [docPub, docPriv] }

/-- An empty backing state. -/
def emptySt : St := { storage := [], db := [] }

/-- Session tokens for alice and bob. -/
def sessionsAB : List (String × String) := [("tokA", "alice"), ("tokB", "bob")]

/-- A small in-bounds multipart file part. -/
def smallPart : FilePart :=
  { fieldname := "file", filename := "cv.pdf", mimeType := "application/pdf", size := 1024 }

/-- A multipart file part one byte over the 15MB limit. -/
def bigPart : FilePart :=
  { fieldname := "file", filename := "big.bin", mimeType := "application/octet-stream",
    size := 15 * 1024 * 1024 + 1 }

/-- The row created by uploading `smallPart` with a `visibility=public` field. -/
def rowPub : DocRow :=
  { id := 7, user_id := "alice", name := "cv.pdf", size := "1.0 KB",
    created_at := 100, visibility := "public", file_path := "alice/100_cv.pdf" }

/-- C1 counterexample: a valid bearer token for bob and the existing public
document docId 1 owned by alice.  The claim says the request succeeds
because the document is public, but the second get-document-url variant
filters the fetch by the requester's user id and answers 404 with an
error body. -/
theorem getDocumentUrl2_nonowner_public_cex :
    docPub.visibility = "public"
    ∧ docPub.user_id ≠ "bob"
    ∧ getUser sessionsAB ("Bearer tokB".drop 7) = some "bob"
    ∧ stDocs.db.filter (fun r => r.id == 1) = [docPub]
    ∧ (getDocumentUrl2 .POST true (some "Bearer tokB") sessionsAB (some 1) none stDocs).status = 404
    ∧ (getDocumentUrl2 .POST true (some "Bearer tokB") sessionsAB (some 1) none stDocs).body
        = .err "Document not found or access denied" := by
  decide

/-- C1 (amended): for a valid bearer token and an existing docId, the
variant fetching by docId alone succeeds with a signed URL exactly when
the requester owns the document or it is public, and rejects a non-owner
request for a private document with 403 and an error body; the variant
fetching filtered by user id succeeds exactly when the requester owns the
document (public URL for public rows, signed URL for private ones) and
answers 404 with an error body for every non-owned document, public or
private.  Both variants leave the state, and hence the stored row,
unchanged. -/
theorem getDocumentUrl_access_characterisation
    (sessions : List (String × String)) (a user : String) (st : St) (d : Nat) (doc : DocRow)
    (hS : strStartsWith a "Bearer " = true)
    (hU : getUser sessions (a.drop 7) = some user)
    (hd : d ≠ 0)
    (hDoc : st.db.filter (fun r => r.id == d) = [doc]) :
    ((doc.user_id = user ∨ doc.visibility = "public") →
       getDocumentUrl1 .POST true (some a) sessions (some d) none st
         = ⟨200, .url (createSignedUrl doc.file_path (60 * 10)), st⟩)
    ∧ (doc.user_id ≠ user → doc.visibility ≠ "public" →
       getDocumentUrl1 .POST true (some a) sessions (some d) none st
         = ⟨403, .err "Access denied", st⟩)
    ∧ (doc.user_id = user →
        (doc.visibility = "public" →
          getDocumentUrl2 .POST true (some a) sessions (some d) none st
            = ⟨200, .url (getPublicUrl doc.file_path), st⟩)
        ∧ (doc.visibility ≠ "public" →
          getDocumentUrl2 .POST true (some a) sessions (some d) none st
            = ⟨200, .url (createSignedUrl doc.file_path (60 * 10)), st⟩))
    ∧ (doc.user_id ≠ user →
        getDocumentUrl2 .POST true (some a) sessions (some d) none st
          = ⟨404, .err "Document not found or access denied", st⟩) := by
  have hAnd := filter_user_of_filter_id st.db d user doc hDoc
  have hSingle : singleRow (st.db.filter (fun r => r.id == d)) = some doc := by
    rw [hDoc]; rfl
  refine ⟨?_, ?_, ?_, ?_⟩
  · intro hOk
    rcases hOk with h | h <;> simp [getDocumentUrl1, hS, hU, hd, hSingle, h]
  · intro h1 h2
    simp [getDocumentUrl1, hS, hU, hd, hSingle, h1, h2]
  · intro hOwn
    constructor
    · intro hPub
      simp [getDocumentUrl2, hS, hU, hd, hAnd, hOwn, hPub, singleRow]
    · intro hPriv
      simp [getDocumentUrl2, hS, hU, hd, hAnd, hOwn, hPriv, singleRow]
  · intro hNot
    simp [getDocumentUrl2, hS, hU, hd, hAnd, hNot, singleRow]

/-- C1 witness: bob requesting alice's private document through the first
variant is rejected with 403. -/
theorem getDocumentUrl_access_witness :
    getDocumentUrl1 .POST true (some "Bearer tokB") sessionsAB (some 2) none stDocs
      = ⟨403, .err "Access denied", stDocs⟩ :=
  (getDocumentUrl_access_characterisation sessionsAB "Bearer tokB" "bob" stDocs 2 docPriv
    (by decide) (by decide) (by decide) (by decide)).2.1 (by decide) (by decide)

/-- C2 counterexample: a file one byte over the 15MB limit sent to the
upload-document.js variant.  The claim says the operation fails and no
document is created, but the empty limit handler accepts the truncated
file: the handler answers 200, a 15MB storage object is written, and a
database row is inserted. -/
theorem upload_oversized_truncated_cex :
    bigPart.size > 15 * 1024 * 1024
    ∧ (uploadDocumentHandler .POST true true (some "Bearer tokA") sessionsAB [] [bigPart]
        100 7 none none emptySt).status = 200
    ∧ (uploadDocumentHandler .POST true true (some "Bearer tokA") sessionsAB [] [bigPart]
        100 7 none none emptySt).st.db
        = [{ id := 7, user_id := "alice", name := "big.bin", size := "15.0 MB",
             created_at := 100, visibility := "private", file_path := "alice/100_big.bin" }]
    ∧ (uploadDocumentHandler .POST true true (some "Bearer tokA") sessionsAB [] [bigPart]
        100 7 none none emptySt).st.storage
        = [("alice/100_big.bin", 15 * 1024 * 1024)] := by
  decide

/-- C2 (amended): for a file over 15MB the client rejects the submit
before any network request, and the part_006 parser variant rejects the
upload with a 500 error and an unchanged state, so no object is written
and no row inserted; the upload-document.js variant instead truncates the
file to exactly 15MB, uploads the truncated bytes, and inserts a database
row recording the truncated size. -/
theorem upload_size_limit_characterisation
    (sessions : List (String × String)) (a user un uv : String)
    (fields : List (String × String)) (p : FilePart) (now newId : Nat)
    (sErr dErr : Option String) (st : St)
    (hS : strStartsWith a "Bearer " = true)
    (hT : a.drop 7 ≠ "")
    (hU : getUser sessions (a.drop 7) = some user)
    (hfld : p.fieldname = "file")
    (hfn : p.filename ≠ "")
    (hNoName : jsGet fields "name" = none)
    (hTrim : strTrim p.filename = p.filename)
    (hn : jsOr (strTrim un) p.filename ≠ "")
    (hBig : p.size > 15 * 1024 * 1024) :
    handleUploadSubmit (some p) un uv = .rejected "File too large. Max 15MB."
    ∧ uploadDocumentHandlerV2 .POST true true (some a) sessions fields [p] now newId sErr dErr st
        = ⟨500, .err "File too large. Max 15MB.", st⟩
    ∧ uploadDocumentHandler .POST true true (some a) sessions fields [p] now newId none none st
        = ⟨200, .document
            { id := newId, user_id := user, name := p.filename,
              size := sizeLabel fileSizeLimit, created_at := now,
              visibility := (if jsOr ((jsGet fields "visibility").getD "") "private" == "public" then "public" else "private"),
              file_path := user ++ "/" ++ toString now ++ "_" ++ p.filename },
            { storage := (user ++ "/" ++ toString now ++ "_" ++ p.filename, fileSizeLimit) :: st.storage,
              db := st.db ++ [{ id := newId, user_id := user, name := p.filename,
                                size := sizeLabel fileSizeLimit, created_at := now,
                                visibility := (if jsOr ((jsGet fields "visibility").getD "") "private" == "public" then "public" else "private"),
                                file_path := user ++ "/" ++ toString now ++ "_" ++ p.filename }] }⟩ := by
  have hBig2 : p.size > fileSizeLimit := by simpa [fileSizeLimit] using hBig
  have hmin : min p.size fileSizeLimit = fileSizeLimit := Nat.min_eq_right (le_of_lt hBig2)
  refine ⟨?_, ?_, ?_⟩
  · simp [handleUploadSubmit, MAX_BYTES, hn, hBig]
  · simp [uploadDocumentHandlerV2, parseMultipartB, hS, hT, hU, hfld, hBig2]
  · simp [uploadDocumentHandler, parseMultipartA, jsOr, hS, hT, hU, hfld, hfn, hNoName,
          hTrim, hmin]

/-- C2 witness: the oversized part is rejected by the part_006 variant
with the File too large error and an unchanged state. -/
theorem upload_size_limit_witness :
    uploadDocumentHandlerV2 .POST true true (some "Bearer tokA") sessionsAB [] [bigPart]
        100 7 none none emptySt
      = ⟨500, .err "File too large. Max 15MB.", emptySt⟩ :=
  (upload_size_limit_characterisation sessionsAB "Bearer tokA" "alice" "My Document" "private"
    [] bigPart 100 7 none none emptySt
    (by decide) (by decide) (by decide) (by decide) (by decide) (by decide) (by decide)
    (by decide) (by decide)).2.1

/-- C3: for every update-document request, in both handler variants, every
row of the table keeps its id, user id, size, creation timestamp and file
path (only name and visibility can change), and any key of the update
payload other than name and visibility is ignored: restricting the payload
to the allow-list gives the identical response and state. -/
theorem updateDocument_allowlist_frame
    (method : Method) (keyOk : Bool) (authHeader : Option String)
    (sessions : List (String × String)) (docId : Option Nat)
    (body upd : List (String × String)) (updateError : Option String) (st : St) :
    List.Forall₂ frameEq st.db
      (updateDocumentHandler1 method keyOk authHeader sessions docId body updateError st).st.db
    ∧ List.Forall₂ frameEq st.db
      (updateDocumentHandler2 method keyOk authHeader sessions docId (some upd) updateError st).st.db
    ∧ updateDocumentHandler1 method keyOk authHeader sessions docId
        (body.filter (fun kv => kv.1 == "name" || kv.1 == "visibility")) updateError st
      = updateDocumentHandler1 method keyOk authHeader sessions docId body updateError st
    ∧ updateDocumentHandler2 method keyOk authHeader sessions docId
        (some (upd.filter (fun kv => kv.1 == "name" || kv.1 == "visibility"))) updateError st
      = updateDocumentHandler2 method keyOk authHeader sessions docId (some upd) updateError st := by
  refine ⟨?_, ?_, ?_, ?_⟩
  · unfold updateDocumentHandler1
    dsimp only
    repeat' split
    all_goals try exact forall₂_frameEq_refl _
    all_goals
      apply forall₂_frameEq_map
    all_goals intro r
    all_goals split
    all_goals first
      | exact frameEq_applyUpdates _ _ _
      | exact frameEq_refl _
  · unfold updateDocumentHandler2
    dsimp only
    repeat' split
    all_goals try exact forall₂_frameEq_refl _
    all_goals
      apply forall₂_frameEq_map
    all_goals intro r
    all_goals split
    all_goals first
      | exact frameEq_applyUpdates _ _ _
      | exact frameEq_refl _
  · have hn := jsGet_filter_allowed body "name" (Or.inl rfl)
    have hv := jsGet_filter_allowed body "visibility" (Or.inr rfl)
    simp only [updateDocumentHandler1, hn, hv]
  · have hn := jsGet_filter_allowed upd "name" (Or.inl rfl)
    have hv := jsGet_filter_allowed upd "visibility" (Or.inr rfl)
    simp only [updateDocumentHandler2, hn, hv]

/-- C4: when the storage upload succeeds and the database insert fails, the
upload handler answers an error, the uploaded object stays in storage, and
the table is unchanged, leaving an orphaned storage object; the client
addDocument path behaves the same way. -/
theorem upload_insert_failure_orphan
    (sessions : List (String × String)) (a user m : String)
    (fields : List (String × String)) (p : FilePart) (now newId : Nat) (st : St)
    (hS : strStartsWith a "Bearer " = true)
    (hT : a.drop 7 ≠ "")
    (hU : getUser sessions (a.drop 7) = some user)
    (hfld : p.fieldname = "file")
    (hfn : p.filename ≠ "")
    (hNoName : jsGet fields "name" = none)
    (hTrim : strTrim p.filename = p.filename) :
    ((uploadDocumentHandler .POST true true (some a) sessions fields [p] now newId none (some m) st).status = 400
    ∧ (uploadDocumentHandler .POST true true (some a) sessions fields [p] now newId none (some m) st).body = .err m
    ∧ (uploadDocumentHandler .POST true true (some a) sessions fields [p] now newId none (some m) st).st.storage
        = (user ++ "/" ++ toString now ++ "_" ++ p.filename, min p.size fileSizeLimit) :: st.storage
    ∧ (uploadDocumentHandler .POST true true (some a) sessions fields [p] now newId none (some m) st).st.db = st.db)
    ∧ (∀ (pid fn : String) (fs : Nat) (dn : String) (dv : Option String)
          (now2 id2 : Nat) (st2 : St) (m2 : String),
        (addDocument pid fn fs dn dv now2 id2 none (some m2) st2).1.storage
            = (pid ++ "/" ++ toString now2 ++ "_" ++ fn, fs) :: st2.storage
        ∧ (addDocument pid fn fs dn dv now2 id2 none (some m2) st2).1.db = st2.db
        ∧ (addDocument pid fn fs dn dv now2 id2 none (some m2) st2).2 = Except.error m2) := by
  constructor
  · refine ⟨?_, ?_, ?_, ?_⟩ <;>
      simp [uploadDocumentHandler, parseMultipartA, jsOr, hS, hT, hU, hfld, hfn, hNoName, hTrim]
  · intro pid fn fs dn dv now2 id2 st2 m2
    refine ⟨?_, ?_, ?_⟩ <;> simp [addDocument]

/-- C4 witness: a concrete upload whose insert fails leaves the object in
storage and the table empty. -/
theorem upload_insert_failure_orphan_witness :
    (uploadDocumentHandler .POST true true (some "Bearer tokA") sessionsAB [] [smallPart]
        100 7 none (some "boom") emptySt).status = 400
    ∧ (uploadDocumentHandler .POST true true (some "Bearer tokA") sessionsAB [] [smallPart]
        100 7 none (some "boom") emptySt).body = .err "boom"
    ∧ (uploadDocumentHandler .POST true true (some "Bearer tokA") sessionsAB [] [smallPart]
        100 7 none (some "boom") emptySt).st.storage
        = ("alice" ++ "/" ++ toString 100 ++ "_" ++ smallPart.filename,
           min smallPart.size fileSizeLimit) :: emptySt.storage
    ∧ (uploadDocumentHandler .POST true true (some "Bearer tokA") sessionsAB [] [smallPart]
        100 7 none (some "boom") emptySt).st.db = emptySt.db :=
  (upload_insert_failure_orphan sessionsAB "Bearer tokA" "alice" "boom" [] smallPart 100 7 emptySt
    (by decide) (by decide) (by decide) (by decide) (by decide) (by decide) (by decide)).1

/-- C5: for an owner's delete request, a failing storage removal is
swallowed: the response is still 200 with a success body and the row is
deleted from the table; the operation errors only when the database delete
itself fails, and then with the database error.  The client deleteDocument
path behaves the same way. -/
theorem deleteDocument_storage_error_swallowed
    (sessions : List (String × String)) (a user : String) (st : St) (d : Nat) (doc : DocRow)
    (hS : strStartsWith a "Bearer " = true)
    (hU : getUser sessions (a.drop 7) = some user)
    (hd : d ≠ 0)
    (hDoc : singleRow (st.db.filter (fun r => r.id == d && r.user_id == user)) = some doc)
    (sErr : Option String) (m : String) :
    ((deleteDocumentHandler .POST true (some a) sessions (some d) sErr none st).status = 200
      ∧ (deleteDocumentHandler .POST true (some a) sessions (some d) sErr none st).body = .success
      ∧ (deleteDocumentHandler .POST true (some a) sessions (some d) sErr none st).st.db
          = st.db.filter (fun r => r.id != d))
    ∧ ((deleteDocumentHandler .POST true (some a) sessions (some d) sErr (some m) st).status = 500
      ∧ (deleteDocumentHandler .POST true (some a) sessions (some d) sErr (some m) st).body = .err m
      ∧ (deleteDocumentHandler .POST true (some a) sessions (some d) sErr (some m) st).st.db = st.db)
    ∧ (∀ (documents : List DocRow) (d2 : Nat) (doc2 : DocRow) (sErr2 : Option String)
          (st2 : St) (m2 : String),
        documents.find? (fun x => x.id == d2) = some doc2 →
        ((deleteDocumentClient documents d2 sErr2 none st2).2
            = Except.ok (documents.filter (fun x => x.id != d2))
          ∧ (deleteDocumentClient documents d2 sErr2 none st2).1.db
              = st2.db.filter (fun r => r.id != d2))
        ∧ (deleteDocumentClient documents d2 sErr2 (some m2) st2).2 = Except.error m2) := by
  refine ⟨⟨?_, ?_, ?_⟩, ⟨?_, ?_, ?_⟩, ?_⟩
  · simp [deleteDocumentHandler, hS, hU, hd, hDoc]
  · simp [deleteDocumentHandler, hS, hU, hd, hDoc]
  · simp [deleteDocumentHandler, hS, hU, hd, hDoc]
  · simp [deleteDocumentHandler, hS, hU, hd, hDoc]
  · simp [deleteDocumentHandler, hS, hU, hd, hDoc]
  · simp [deleteDocumentHandler, hS, hU, hd, hDoc]
  · intro documents d2 doc2 sErr2 st2 m2 hF
    refine ⟨⟨?_, ?_⟩, ?_⟩ <;> simp [deleteDocumentClient, hF]

/-- C5 witness: deleting alice's private document while the storage
removal fails still answers 200 success and removes the row. -/
theorem deleteDocument_storage_error_swallowed_witness :
    (deleteDocumentHandler .POST true (some "Bearer tokA") sessionsAB (some 2)
        (some "storage boom") none stDocs).status = 200
    ∧ (deleteDocumentHandler .POST true (some "Bearer tokA") sessionsAB (some 2)
        (some "storage boom") none stDocs).body = .success
    ∧ (deleteDocumentHandler .POST true (some "Bearer tokA") sessionsAB (some 2)
        (some "storage boom") none stDocs).st.db
        = stDocs.db.filter (fun r => r.id != 2) :=
  (deleteDocument_storage_error_swallowed sessionsAB "Bearer tokA" "alice" stDocs 2 docPriv
    (by decide) (by decide) (by decide) (by decide) (some "storage boom") "db boom").1

/-- C6 counterexample: the part_000 fetch variant run for alice over a
table with one private document.  The claim says private rows are
returned with no public URL, but the variant derives a public URL for
every row, private ones included. -/
theorem fetchDocumentsV0_private_public_url_cex :
    docPriv.visibility = "private"
    ∧ fetchDocumentsV0 "alice" none { storage := [], db := [docPriv] }
        = [{ row := docPriv, public_url := some "public:alice/50_secret.pdf" }] := by
  decide

/-- C6 (amended): the list-documents handler and the DocumentContext fetch
path return exactly the authenticated user's rows from the table, with a
derived public URL if and only if the row's visibility is public; the
part_000 fetch variant also returns only the user's rows but derives a
public URL for every returned row, private ones included. -/
theorem listDocuments_public_url_characterisation
    (sessions : List (String × String)) (a user : String) (st : St)
    (hS : strStartsWith a "Bearer " = true)
    (hU : getUser sessions (a.drop 7) = some user) :
    (∃ ds, listDocumentsHandler .GET true (some a) sessions none st = ⟨200, .documents ds, st⟩
      ∧ ∀ e ∈ ds, (e.public_url.isSome ↔ e.row.visibility = "public")
          ∧ e.row.user_id = user ∧ e.row ∈ st.db)
    ∧ (∃ ds2, fetchDocumentsClient user none st = Except.ok ds2
      ∧ ∀ e ∈ ds2, (e.public_url.isSome ↔ e.row.visibility = "public")
          ∧ e.row.user_id = user ∧ e.row ∈ st.db)
    ∧ (∀ e ∈ fetchDocumentsV0 user none st,
        e.public_url.isSome ∧ e.row.user_id = user ∧ e.row ∈ st.db) := by
  refine ⟨⟨(sortByCreatedAtDesc (st.db.filter (fun r => r.user_id == user))).map enhanceDoc, ?_, ?_⟩,
          ⟨(sortByCreatedAtDesc (st.db.filter (fun r => r.user_id == user))).map enhanceDoc, rfl, ?_⟩,
          ?_⟩
  · simp [listDocumentsHandler, hS, hU]
  · intro e he
    exact mem_enhanced user st.db e he
  · intro e he
    exact mem_enhanced user st.db e he
  · intro e he
    exact mem_fetchDocumentsV0 user st e he

/-- C6 witness: the characterisation applied to alice's two documents. -/
theorem listDocuments_public_url_witness :
    ∃ ds, listDocumentsHandler .GET true (some "Bearer tokA") sessionsAB none stDocs
        = ⟨200, .documents ds, stDocs⟩
      ∧ ∀ e ∈ ds, (e.public_url.isSome ↔ e.row.visibility = "public")
          ∧ e.row.user_id = "alice" ∧ e.row ∈ stDocs.db :=
  (listDocuments_public_url_characterisation sessionsAB "Bearer tokA" "alice" stDocs
    (by decide) (by decide)).1

/-- C7: for each of the five endpoints, in every embedded handler variant,
a request using the endpoint's method whose Authorization header is absent
or does not begin with Bearer followed by a space is answered 401 with an
error body and an unchanged state, so no storage or database operation is
performed. -/
theorem endpoints_reject_missing_bearer
    (authHeader : Option String) (hBad : missingBearer authHeader = true)
    (sessions : List (String × String)) (fetchError : Option String) (docId : Option Nat)
    (signError : Option String) (body upd : List (String × String))
    (updateError sErr dErr : Option String)
    (fields : List (String × String)) (parts : List FilePart) (now newId : Nat)
    (sUpErr dInsErr : Option String) (st : St) :
    listDocumentsHandler .GET true authHeader sessions fetchError st
      = ⟨401, .err "Missing or invalid Authorization header", st⟩
    ∧ uploadDocumentHandler .POST true true authHeader sessions fields parts now newId sUpErr dInsErr st
      = ⟨401, .err "Missing Authorization Bearer token", st⟩
    ∧ uploadDocumentHandlerV2 .POST true true authHeader sessions fields parts now newId sUpErr dInsErr st
      = ⟨401, .err "Missing Authorization Bearer token", st⟩
    ∧ updateDocumentHandler1 .POST true authHeader sessions docId body updateError st
      = ⟨401, .err "Missing or invalid Authorization header", st⟩
    ∧ updateDocumentHandler2 .POST true authHeader sessions docId (some upd) updateError st
      = ⟨401, .err "Missing or invalid Authorization header", st⟩
    ∧ deleteDocumentHandler .POST true authHeader sessions docId sErr dErr st
      = ⟨401, .err "Missing or invalid Authorization header", st⟩
    ∧ getDocumentUrl1 .POST true authHeader sessions docId signError st
      = ⟨401, .err "Missing or invalid Authorization header", st⟩
    ∧ getDocumentUrl2 .POST true authHeader sessions docId signError st
      = ⟨401, .err "Missing or invalid Authorization header", st⟩ := by
  cases authHeader with
  | none => exact ⟨rfl, rfl, rfl, rfl, rfl, rfl, rfl, rfl⟩
  | some s =>
    have hS : strStartsWith s "Bearer " = false := by
      simpa [missingBearer] using hBad
    refine ⟨?_, ?_, ?_, ?_, ?_, ?_, ?_, ?_⟩ <;>
      simp [listDocumentsHandler, uploadDocumentHandler, uploadDocumentHandlerV2,
            updateDocumentHandler1, updateDocumentHandler2, deleteDocumentHandler,
            getDocumentUrl1, getDocumentUrl2, hS]

/-- C7 witness: a request with no Authorization header is answered 401 by
the list handler and the upload handler, with the state unchanged. -/
theorem endpoints_reject_missing_bearer_witness :
    listDocumentsHandler .GET true none sessionsAB none stDocs
      = ⟨401, .err "Missing or invalid Authorization header", stDocs⟩
    ∧ uploadDocumentHandler .POST true true none sessionsAB [] [smallPart] 100 7 none none stDocs
      = ⟨401, .err "Missing Authorization Bearer token", stDocs⟩ := by
  have h := endpoints_reject_missing_bearer none (by decide) sessionsAB none (some 1) none
    [] [] none none none [] [smallPart] 100 7 none none stDocs
  exact ⟨h.1, h.2.1⟩

/-- C8: a successful upload writes the file bytes under the storage key
userId, a slash, the current timestamp, an underscore, and the uploaded
file's original filename, and records exactly that key as the inserted
row's file_path; the client addDocument path builds the same key from the
profile id and the picked file's name. -/
theorem upload_storage_key_format
    (sessions : List (String × String)) (a user : String)
    (fields : List (String × String)) (p : FilePart) (now newId : Nat) (st : St)
    (hS : strStartsWith a "Bearer " = true)
    (hT : a.drop 7 ≠ "")
    (hU : getUser sessions (a.drop 7) = some user)
    (hfld : p.fieldname = "file")
    (hfn : p.filename ≠ "")
    (hNoName : jsGet fields "name" = none)
    (hTrim : strTrim p.filename = p.filename) :
    uploadDocumentHandler .POST true true (some a) sessions fields [p] now newId none none st
      = ⟨200, .document
          { id := newId, user_id := user, name := p.filename,
            size := sizeLabel (min p.size fileSizeLimit), created_at := now,
            visibility := (if jsOr ((jsGet fields "visibility").getD "") "private" == "public" then "public" else "private"),
            file_path := user ++ "/" ++ toString now ++ "_" ++ p.filename },
          { storage := (user ++ "/" ++ toString now ++ "_" ++ p.filename, min p.size fileSizeLimit) :: st.storage,
            db := st.db ++ [{ id := newId, user_id := user, name := p.filename,
                              size := sizeLabel (min p.size fileSizeLimit), created_at := now,
                              visibility := (if jsOr ((jsGet fields "visibility").getD "") "private" == "public" then "public" else "private"),
                              file_path := user ++ "/" ++ toString now ++ "_" ++ p.filename }] }⟩
    ∧ (∀ (pid fn : String) (fs : Nat) (dn : String) (dv : Option String)
          (now2 id2 : Nat) (st2 : St),
        (addDocument pid fn fs dn dv now2 id2 none none st2).2
          = Except.ok { id := id2, user_id := pid, name := dn, size := clientSizeLabel fs,
                        created_at := now2, visibility := jsOr (dv.getD "") "private",
                        file_path := pid ++ "/" ++ toString now2 ++ "_" ++ fn }
        ∧ (addDocument pid fn fs dn dv now2 id2 none none st2).1.storage
            = (pid ++ "/" ++ toString now2 ++ "_" ++ fn, fs) :: st2.storage) := by
  constructor
  · simp [uploadDocumentHandler, parseMultipartA, jsOr, hS, hT, hU, hfld, hfn, hNoName, hTrim]
  · intro pid fn fs dn dv now2 id2 st2
    refine ⟨?_, ?_⟩ <;> simp [addDocument]

/-- C8 witness: uploading the small file as alice at timestamp 100 stores
the bytes under alice/100_cv.pdf and records that key in the row. -/
theorem upload_storage_key_format_witness :
    uploadDocumentHandler .POST true true (some "Bearer tokA") sessionsAB [] [smallPart]
        100 7 none none emptySt
      = ⟨200, .document
          { id := 7, user_id := "alice", name := smallPart.filename,
            size := sizeLabel (min smallPart.size fileSizeLimit), created_at := 100,
            visibility := (if jsOr ((jsGet ([] : List (String × String)) "visibility").getD "") "private" == "public" then "public" else "private"),
            file_path := "alice" ++ "/" ++ toString 100 ++ "_" ++ smallPart.filename },
          { storage := ("alice" ++ "/" ++ toString 100 ++ "_" ++ smallPart.filename,
                        min smallPart.size fileSizeLimit) :: emptySt.storage,
            db := emptySt.db ++ [{ id := 7, user_id := "alice", name := smallPart.filename,
                                   size := sizeLabel (min smallPart.size fileSizeLimit), created_at := 100,
                                   visibility := (if jsOr ((jsGet ([] : List (String × String)) "visibility").getD "") "private" == "public" then "public" else "private"),
                                   file_path := "alice" ++ "/" ++ toString 100 ++ "_" ++ smallPart.filename }] }⟩ :=
  (upload_storage_key_format sessionsAB "Bearer tokA" "alice" [] smallPart 100 7 emptySt
    (by decide) (by decide) (by decide) (by decide) (by decide) (by decide) (by decide)).1

/-- C9: whenever either upload handler variant answers with a created
document row, the row's visibility is exactly public or private, and it is
public precisely when the submitted visibility field was the exact string
public; any other value, the empty string, or an absent field is stored as
private. -/
theorem upload_visibility_normalised
    (method : Method) (envU envK : Bool) (aH : Option String)
    (sessions fields : List (String × String)) (parts : List FilePart)
    (now newId : Nat) (sErr dErr : Option String) (st : St) (row : DocRow) :
    ((uploadDocumentHandler method envU envK aH sessions fields parts now newId sErr dErr st).body
        = .document row →
      (row.visibility = "public" ∨ row.visibility = "private")
      ∧ (row.visibility = "public" ↔ jsGet fields "visibility" = some "public"))
    ∧ ((uploadDocumentHandlerV2 method envU envK aH sessions fields parts now newId sErr dErr st).body
        = .document row →
      (row.visibility = "public" ∨ row.visibility = "private")
      ∧ (row.visibility = "public" ↔ jsGet fields "visibility" = some "public")) := by
  constructor
  · unfold uploadDocumentHandler
    dsimp only
    repeat' split
    all_goals intro h
    all_goals dsimp only at h
    all_goals
      first
        | exact Body.noConfusion h
        | (injection h with h2; subst h2;
           rename_i hcond;
           refine ⟨Or.inl rfl, ?_⟩;
           have hn := visibility_normalisation (jsGet fields "visibility");
           rw [if_pos hcond] at hn; exact hn)
        | (injection h with h2; subst h2;
           rename_i hcond;
           refine ⟨Or.inr rfl, ?_⟩;
           have hn := visibility_normalisation (jsGet fields "visibility");
           rw [if_neg hcond] at hn; exact hn)
  · unfold uploadDocumentHandlerV2
    dsimp only
    repeat' split
    all_goals intro h
    all_goals dsimp only at h
    all_goals
      first
        | exact Body.noConfusion h
        | (injection h with h2; subst h2;
           rename_i hcond;
           refine ⟨Or.inl rfl, ?_⟩;
           have hn := visibility_normalisation (jsGet fields "visibility");
           rw [if_pos hcond] at hn; exact hn)
        | (injection h with h2; subst h2;
           rename_i hcond;
           refine ⟨Or.inr rfl, ?_⟩;
           have hn := visibility_normalisation (jsGet fields "visibility");
           rw [if_neg hcond] at hn; exact hn)

/-- C9 witness: the row created by an upload submitting visibility public
is stored public, matching the normalisation. -/
theorem upload_visibility_normalised_witness :
    (rowPub.visibility = "public" ∨ rowPub.visibility = "private")
    ∧ (rowPub.visibility = "public"
        ↔ jsGet [("visibility", "public")] "visibility" = some "public") :=
  (upload_visibility_normalised .POST true true (some "Bearer tokA") sessionsAB
    [("visibility", "public")] [smallPart] 100 7 none none emptySt rowPub).1 (by decide)

/-- C10: with a valid bearer token, the rows returned by the list handler
and by the client fetch path are sorted by created_at in descending order,
newest first. -/
theorem listDocuments_sorted_desc
    (sessions : List (String × String)) (a user : String) (st : St)
    (hS : strStartsWith a "Bearer " = true)
    (hU : getUser sessions (a.drop 7) = some user) :
    (∃ ds, listDocumentsHandler .GET true (some a) sessions none st = ⟨200, .documents ds, st⟩
      ∧ ds.Pairwise (fun e1 e2 => e2.row.created_at ≤ e1.row.created_at))
    ∧ (∃ ds2, fetchDocumentsClient user none st = Except.ok ds2
      ∧ ds2.Pairwise (fun e1 e2 => e2.row.created_at ≤ e1.row.created_at)) := by
  refine ⟨⟨(sortByCreatedAtDesc (st.db.filter (fun r => r.user_id == user))).map enhanceDoc,
           ?_, pairwise_enhanced user st.db⟩,
          ⟨(sortByCreatedAtDesc (st.db.filter (fun r => r.user_id == user))).map enhanceDoc,
           rfl, pairwise_enhanced user st.db⟩⟩
  simp [listDocumentsHandler, hS, hU]

/-- C10 witness: the sorted listing applied to alice's two documents. -/
theorem listDocuments_sorted_desc_witness :
    ∃ ds, listDocumentsHandler .GET true (some "Bearer tokA") sessionsAB none stDocs
        = ⟨200, .documents ds, stDocs⟩
      ∧ ds.Pairwise (fun e1 e2 => e2.row.created_at ≤ e1.row.created_at) :=
  (listDocuments_sorted_desc sessionsAB "Bearer tokA" "alice" stDocs
    (by decide) (by decide)).1
